import Mathlib

/-!
Verification development for the BetterSprinkler simulation (src/index.tsx).

The physics core consists of two independently coded components:

* `solveScenario` — the closed-form trajectory solver (no-drag closed forms for
  scenario 1, a 15-step Newton–Raphson time-of-flight solve for the linear-drag
  scenarios 2 and 3), mirroring `Simulation.solveScenario`;
* `calculatePhysics` — the per-particle incremental evaluator, mirroring
  `Simulation.calculatePhysics`, together with the displacement/velocity
  formulas `evalDx`, `evalDy`, `evalVx`, `evalVy` it computes.

The source is JavaScript floating-point arithmetic over `Math.exp`, `Math.sin`,
`Math.cos`, `Math.log`, `Math.sqrt` and `Math.PI`.  We embed it shallowly over
an arbitrary linear ordered field together with a bundle `TransFns` of the
transcendental functions; the theorems instantiate the bundle with the real
functions `Real.exp`, `Real.sin`, `Real.cos`, `Real.log`, `Real.sqrt`,
`Real.pi`.  All definitions are translated directly from the source.
-/

namespace BetterSprinkler

/-- Bundle of the transcendental functions used by the source
(`Math.exp`, `Math.sin`, `Math.cos`, `Math.log`, `Math.sqrt`, `Math.PI`). -/
structure TransFns (α : Type) where
  exp : α → α
  sin : α → α
  cos : α → α
  log : α → α
  sqrt : α → α
  pi : α

variable {α : Type} [LinearOrderedField α]

/-- `const BETA = 1.5` (linear drag coefficient). -/
def BETA : α := 3 / 2

/-- `const G = 9.81` (gravity). -/
def G : α := 981 / 100

/-- `const GROUND_LINE_NORM = 0.942` (visual ground level). -/
def GROUND_LINE_NORM : α := 942 / 1000

/-- `const NOZZLE_TOP_NORM = 0.150` (top of blue pole, 1.0 m). -/
def NOZZLE_TOP_NORM : α := 150 / 1000

/-- `const TRAIL_LENGTH = 15`. -/
def TRAIL_LENGTH : ℕ := 15

/-- One entry of `Simulation.configs`. -/
structure Config (α : Type) where
  id : ℤ
  x : α
  h0 : α
  dir : α
  label : String

/-- `Simulation.configs`: the three immutable scenario configurations. -/
def configs : List (Config α) :=
  [⟨1, 17 / 100, 45 / 100, 1, "S1"⟩,
   ⟨2, 51 / 100, 45 / 100, 1, "S2"⟩,
   ⟨3, 901 / 1000, 1, -1, "S3"⟩]

/-- `this.configs.find(c => c.id === scenario)`. -/
def cfgOf (scenarioId : ℤ) : Option (Config α) :=
  (configs (α := α)).find? (fun c => c.id == scenarioId)

/-- The record returned by `Simulation.solveScenario`. -/
structure PhysicsResult (α : Type) where
  range : α
  height : α
  time : α
  vFinal : α

/-- The mutable particle record (`interface Particle`). -/
structure Particle (α : Type) where
  startTime : α
  h0 : α
  scenario : ℤ
  angle : α
  velocity : α
  startXNorm : α
  startYNorm : α
  isDead : Bool
  size : α
  history : List (α × α)

/-- The state record returned by `Simulation.calculatePhysics`. -/
structure PhysState (α : Type) where
  x : α
  y : α
  physX : α
  physY : α
  impact : Bool
  vImpact : α

/-- Horizontal displacement `dx` computed by `calculatePhysics`
(lines 106 / 111 of src/index.tsx). -/
def evalDx (T : TransFns α) (scenario : ℤ) (velocity angle dt : α) : α :=
  if scenario = 1 then velocity * T.cos angle * dt
  else velocity * T.cos angle / BETA * (1 - T.exp (-(BETA * dt)))

/-- Vertical displacement `dy` computed by `calculatePhysics`
(lines 107 / 112 of src/index.tsx). -/
def evalDy (T : TransFns α) (scenario : ℤ) (velocity angle dt : α) : α :=
  if scenario = 1 then velocity * T.sin angle * dt - (1 / 2) * G * dt ^ 2
  else (1 / BETA) * (velocity * T.sin angle + G / BETA) * (1 - T.exp (-(BETA * dt)))
    - G * dt / BETA

/-- Horizontal velocity `vx` computed by `calculatePhysics`
(lines 108 / 113 of src/index.tsx). -/
def evalVx (T : TransFns α) (scenario : ℤ) (velocity angle dt : α) : α :=
  if scenario = 1 then velocity * T.cos angle
  else velocity * T.cos angle * T.exp (-(BETA * dt))

/-- Vertical velocity `vy` computed by `calculatePhysics`
(lines 109 / 114 of src/index.tsx). -/
def evalVy (T : TransFns α) (scenario : ℤ) (velocity angle dt : α) : α :=
  if scenario = 1 then velocity * T.sin angle - G * dt
  else (velocity * T.sin angle + G / BETA) * T.exp (-(BETA * dt)) - G / BETA

/-- The vertical scale factor `hScale` (physical range [0.25 m, 1.0 m] maps onto
normalized screen range [ground line, nozzle top]). -/
def hScale : α := (GROUND_LINE_NORM - NOZZLE_TOP_NORM) / (1 - 1 / 4)

/-- `Simulation.calculatePhysics(particle, now)` (lines 97–149).  Returns `none`
both for `dt < 0` (the source's `return null`) and for a scenario id absent
from `configs` (where the source's non-null assertion `find(...)!` would fault). -/
def calculatePhysics (T : TransFns α) (particle : Particle α) (now : α) :
    Option (PhysState α) :=
  let dt := (now - particle.startTime) / 1000
  if dt < 0 then none
  else
    match cfgOf (α := α) particle.scenario with
    | none => none
    | some cfg =>
      let dx := evalDx T particle.scenario particle.velocity particle.angle dt
      let dy := evalDy T particle.scenario particle.velocity particle.angle dt
      let vx := evalVx T particle.scenario particle.velocity particle.angle dt
      let vy := evalVy T particle.scenario particle.velocity particle.angle dt
      let physY := particle.h0 + dy
      if physY ≤ 45 / 100 ∧ vy < 0 then
        some { x := particle.startXNorm + dx * (22 / 100) * cfg.dir
               y := GROUND_LINE_NORM - (45 / 100 - 1 / 4) * hScale
               physX := |dx|
               physY := 45 / 100
               impact := true
               vImpact := T.sqrt (vx * vx + vy * vy) }
      else
        some { x := particle.startXNorm + dx * (22 / 100) * cfg.dir
               y := GROUND_LINE_NORM - (physY - 1 / 4) * hScale
               physX := |dx|
               physY := physY
               impact := false
               vImpact := T.sqrt (vx * vx + vy * vy) }

/-- `angleRad = angleDeg * Math.PI / 180`. -/
def angleRadOf (T : TransFns α) (angleDeg : α) : α := angleDeg * T.pi / 180

/-- `vx0 = v0 * Math.cos(angleRad)`. -/
def vx0Of (T : TransFns α) (angleDeg v0 : α) : α := v0 * T.cos (angleRadOf T angleDeg)

/-- `vy0 = v0 * Math.sin(angleRad)`. -/
def vy0Of (T : TransFns α) (angleDeg v0 : α) : α := v0 * T.sin (angleRadOf T angleDeg)

/-- The solver's launch height: `const h0 = (scenarioId === 3) ? 1.0 : 0.0`. -/
def solverH0 (scenarioId : ℤ) : α := if scenarioId = 3 then 1 else 0

/-- The Newton seed: `let t = (scenarioId === 3) ? 0.65 : 0.36`. -/
def solverSeed (scenarioId : ℤ) : α := if scenarioId = 3 then 65 / 100 else 36 / 100

/-- The height equation `y` evaluated in each Newton iteration (line 178):
`y = h0 + (1/beta)*(vy0 + g/beta)*(1 - exp(-beta*t)) - g*t/beta`. -/
def solveY (T : TransFns α) (vy0 h0 t : α) : α :=
  h0 + (1 / BETA) * (vy0 + G / BETA) * (1 - T.exp (-(BETA * t))) - G * t / BETA

/-- The derivative `vy_t` evaluated in each Newton iteration (line 179):
`vy_t = (vy0 + g/beta)*exp(-beta*t) - g/beta`. -/
def solveVy (T : TransFns α) (vy0 t : α) : α :=
  (vy0 + G / BETA) * T.exp (-(BETA * t)) - G / BETA

/-- One unguarded Newton–Raphson update (line 180): `t = t - y / vy_t`. -/
def nrStep (T : TransFns α) (vy0 h0 t : α) : α :=
  t - solveY T vy0 h0 t / solveVy T vy0 t

/-- The flight time returned by the drag branch: 15 Newton–Raphson updates
from the fixed seed (lines 175–181). -/
def solveTime (T : TransFns α) (scenarioId : ℤ) (angleDeg v0 : α) : α :=
  (nrStep T (vy0Of T angleDeg v0) (solverH0 scenarioId))^[15] (solverSeed scenarioId)

/-- Apex time `tApex = -(1/beta) * Math.log(g / (g + beta*vy0))` (line 187). -/
def tApexOf (T : TransFns α) (angleDeg v0 : α) : α :=
  -(1 / BETA) * T.log (G / (G + BETA * vy0Of T angleDeg v0))

/-- `maxHeight` of the drag branch (lines 188–191): start from `h0`, and if
`tApex > 0` evaluate the height equation at `tApex`. -/
def maxHeightOf (T : TransFns α) (scenarioId : ℤ) (angleDeg v0 : α) : α :=
  if 0 < tApexOf T angleDeg v0 then
    solverH0 scenarioId
      + (1 / BETA) * (vy0Of T angleDeg v0 + G / BETA)
        * (1 - T.exp (-(BETA * tApexOf T angleDeg v0)))
      - G * tApexOf T angleDeg v0 / BETA
  else solverH0 scenarioId

/-- `Simulation.solveScenario(scenarioId, angleDeg, v0)` (lines 151–199). -/
def solveScenario (T : TransFns α) (scenarioId : ℤ) (angleDeg v0 : α) :
    PhysicsResult α :=
  if scenarioId = 1 then
    { range := vx0Of T angleDeg v0 * (2 * vy0Of T angleDeg v0 / G)
      height := vy0Of T angleDeg v0 * vy0Of T angleDeg v0 / (2 * G)
      time := 2 * vy0Of T angleDeg v0 / G
      vFinal := v0 }
  else
    { range := vx0Of T angleDeg v0 / BETA
        * (1 - T.exp (-(BETA * solveTime T scenarioId angleDeg v0)))
      height := maxHeightOf T scenarioId angleDeg v0
      time := solveTime T scenarioId angleDeg v0
      vFinal := T.sqrt ((vx0Of T angleDeg v0
          * T.exp (-(BETA * solveTime T scenarioId angleDeg v0))) ^ 2
        + ((vy0Of T angleDeg v0 + G / BETA)
            * T.exp (-(BETA * solveTime T scenarioId angleDeg v0)) - G / BETA) ^ 2) }

/-- The trail-history update performed each frame for a live particle
(lines 352–353): `history.push(pt); if (history.length > TRAIL_LENGTH) history.shift()`. -/
def pushTrail {P : Type} (history : List P) (pt : P) : List P :=
  let h := history ++ [pt]
  if TRAIL_LENGTH < h.length then h.tail else h

/-- The trail history obtained by recording the screen positions `ps` in order,
starting from the empty history a particle is created with. -/
def recordTrail {P : Type} (ps : List P) : List P := ps.foldl pushTrail []

/-- A jitter-free particle as built by `addParticles` with both `p.random`
jitters at zero: emission config taken from `configs`, angle converted to
radians, speed `v0`, emitted at time 0. -/
def jitterFree (T : TransFns α) (scenarioId : ℤ) (angleDeg v0 : α) : Particle α :=
  { startTime := 0
    h0 := ((cfgOf (α := α) scenarioId).map Config.h0).getD 0
    scenario := scenarioId
    angle := angleRadOf T angleDeg
    velocity := v0
    startXNorm := ((cfgOf (α := α) scenarioId).map Config.x).getD 0
    startYNorm := GROUND_LINE_NORM
      - (((cfgOf (α := α) scenarioId).map Config.h0).getD 0 - 1 / 4) * hScale
    isDead := false
    size := 1
    history := [] }

/-! ### Unfolding lemmas for the solver -/

lemma solveScenario_time_one (T : TransFns α) (θ v0 : α) :
    (solveScenario T 1 θ v0).time = 2 * vy0Of T θ v0 / G := by
  simp [solveScenario]

lemma solveScenario_range_one (T : TransFns α) (θ v0 : α) :
    (solveScenario T 1 θ v0).range = vx0Of T θ v0 * (2 * vy0Of T θ v0 / G) := by
  simp [solveScenario]

lemma solveScenario_height_one (T : TransFns α) (θ v0 : α) :
    (solveScenario T 1 θ v0).height = vy0Of T θ v0 * vy0Of T θ v0 / (2 * G) := by
  simp [solveScenario]

lemma solveScenario_vFinal_one (T : TransFns α) (θ v0 : α) :
    (solveScenario T 1 θ v0).vFinal = v0 := by
  simp [solveScenario]

lemma solveScenario_time_drag (T : TransFns α) {id : ℤ} (θ v0 : α) (h : id ≠ 1) :
    (solveScenario T id θ v0).time = solveTime T id θ v0 := by
  simp [solveScenario, h]

lemma solveScenario_range_drag (T : TransFns α) {id : ℤ} (θ v0 : α) (h : id ≠ 1) :
    (solveScenario T id θ v0).range
      = vx0Of T θ v0 / BETA * (1 - T.exp (-(BETA * solveTime T id θ v0))) := by
  simp [solveScenario, h]

lemma solveScenario_height_drag (T : TransFns α) {id : ℤ} (θ v0 : α) (h : id ≠ 1) :
    (solveScenario T id θ v0).height = maxHeightOf T id θ v0 := by
  simp [solveScenario, h]

lemma solveY_via_zero (T : TransFns α) (vy0 h0 t : α) :
    solveY T vy0 h0 t = h0 + solveY T vy0 0 t := by
  simp [solveY]; ring

lemma evalDy_drag (T : TransFns α) {id : ℤ} (v a t : α) (h : id ≠ 1) :
    evalDy T id v a t = solveY T (v * T.sin a) 0 t := by
  simp [evalDy, solveY, h]

lemma evalDx_drag (T : TransFns α) {id : ℤ} (v a t : α) (h : id ≠ 1) :
    evalDx T id v a t = v * T.cos a / BETA * (1 - T.exp (-(BETA * t))) := by
  simp [evalDx, h]

/-- If the height equation already vanishes at the seed, every unguarded Newton
update leaves the estimate unchanged (`y / vy_t = 0` even when `vy_t = 0`),
so the returned flight time is the seed itself. -/
lemma solveTime_of_seed_root (T : TransFns α) (id : ℤ) (θ v0 : α) (h1 : id ≠ 1)
    (hroot : solveY T (vy0Of T θ v0) (solverH0 id) (solverSeed id) = 0) :
    (solveScenario T id θ v0).time = solverSeed id := by
  have hfix : nrStep T (vy0Of T θ v0) (solverH0 id) (solverSeed id) = solverSeed id := by
    rw [nrStep, hroot, zero_div, sub_zero]
  rw [solveScenario_time_drag T θ v0 h1, solveTime, Function.iterate_fixed hfix]

/-! ### Elementary bounds on the real exponential -/

lemma exp_lt_inv_one_sub {x : ℝ} (h0 : x ≠ 0) (h1 : x < 1) :
    Real.exp x < (1 - x)⁻¹ := by
  have hpos : 0 < 1 - x := by linarith
  have hexp := Real.exp_pos x
  have key : 1 - x < (Real.exp x)⁻¹ := by
    have h := Real.add_one_lt_exp (neg_ne_zero.mpr h0)
    rw [Real.exp_neg] at h; linarith
  have h2 : (1 - x) * Real.exp x < 1 := by
    have h3 := mul_lt_mul_of_pos_right key hexp
    rwa [inv_mul_cancel₀ (ne_of_gt hexp)] at h3
  rw [inv_eq_one_div, lt_div_iff hpos]; nlinarith

lemma exp2750_gt : (77 : ℝ) / 50 < Real.exp (27 / 50) := by
  have h := Real.add_one_lt_exp (show (27 : ℝ) / 50 ≠ 0 by norm_num)
  linarith

lemma exp2750_lt : Real.exp (27 / 50) < 10000 / 5329 := by
  have h : Real.exp ((27 : ℝ) / 50) = Real.exp (27 / 100) * Real.exp (27 / 100) := by
    rw [← Real.exp_add]; norm_num
  have hb : Real.exp ((27 : ℝ) / 100) < 100 / 73 := by
    have h4 := exp_lt_inv_one_sub (x := 27 / 100) (by norm_num) (by norm_num)
    norm_num at h4; linarith
  have hp : (0 : ℝ) < Real.exp (27 / 100) := Real.exp_pos _
  rw [h]; nlinarith

lemma exp3940_lt : Real.exp (39 / 40) < 4360 / 1109 := by
  have h1 : Real.exp ((39 : ℝ) / 40) < Real.exp 1 := Real.exp_lt_exp.mpr (by norm_num)
  have h2 := Real.exp_one_lt_d9
  norm_num at h2; linarith

lemma E0_lt : Real.exp (-(27 / 50)) < 50 / 77 := by
  rw [Real.exp_neg]
  have h := inv_lt_inv_of_lt (show (0 : ℝ) < 77 / 50 by norm_num) exp2750_gt
  norm_num at h ⊢; linarith

lemma E0_gt : (5329 : ℝ) / 10000 < Real.exp (-(27 / 50)) := by
  rw [Real.exp_neg]
  have h := inv_lt_inv_of_lt (Real.exp_pos _) exp2750_lt
  norm_num at h ⊢; linarith

lemma E0_lt_one : Real.exp (-(27 / 50)) < 1 := by
  rw [← Real.exp_zero]; exact Real.exp_lt_exp.mpr (by norm_num)

lemma E1_gt : (1109 : ℝ) / 4360 < Real.exp (-(39 / 40)) := by
  rw [Real.exp_neg]
  have h := inv_lt_inv_of_lt (Real.exp_pos _) exp3940_lt
  norm_num at h ⊢; linarith

lemma E1_lt_one : Real.exp (-(39 / 40)) < 1 := by
  rw [← Real.exp_zero]; exact Real.exp_lt_exp.mpr (by norm_num)

/-! ### Launch angles in the open range (0°, 90°) -/

lemma angleRad_pos {θ : ℝ} (h : 0 < θ) : 0 < θ * Real.pi / 180 := by
  have := Real.pi_pos; positivity

lemma angleRad_lt_pi_div_two {θ : ℝ} (h : θ < 90) : θ * Real.pi / 180 < Real.pi / 2 := by
  have := Real.pi_pos; nlinarith

lemma cos_angleRad_pos {θ : ℝ} (h0 : 0 < θ) (h90 : θ < 90) :
    0 < Real.cos (θ * Real.pi / 180) := by
  refine Real.cos_pos_of_mem_Ioo ⟨?_, angleRad_lt_pi_div_two h90⟩
  have h1 := angleRad_pos h0
  have := Real.pi_pos; linarith

lemma sin_angleRad_pos {θ : ℝ} (h0 : 0 < θ) (h90 : θ < 90) :
    0 < Real.sin (θ * Real.pi / 180) := by
  refine Real.sin_pos_of_pos_of_lt_pi (angleRad_pos h0) ?_
  have h1 := angleRad_lt_pi_div_two h90
  have := Real.pi_pos; linarith

lemma sin30 : Real.sin (30 * Real.pi / 180) = 1 / 2 := by
  rw [show (30 : ℝ) * Real.pi / 180 = Real.pi / 6 by ring]
  exact Real.sin_pi_div_six

lemma cos30 : Real.cos (30 * Real.pi / 180) = Real.sqrt 3 / 2 := by
  rw [show (30 : ℝ) * Real.pi / 180 = Real.pi / 6 by ring]
  exact Real.cos_pi_div_six

lemma sin45 : Real.sin (45 * Real.pi / 180) = Real.sqrt 2 / 2 := by
  rw [show (45 : ℝ) * Real.pi / 180 = Real.pi / 4 by ring]
  exact Real.sin_pi_div_four

lemma cos45 : Real.cos (45 * Real.pi / 180) = Real.sqrt 2 / 2 := by
  rw [show (45 : ℝ) * Real.pi / 180 = Real.pi / 4 by ring]
  exact Real.cos_pi_div_four

/-! ### Sign analysis of the drag-branch Newton iteration

For `h0 = 0` the height equation has the two roots `t = 0` and the flight time.
When an update lands strictly left of `0`, every later unguarded update stays
strictly left of `0` (the iteration climbs back towards the spurious root `t = 0`
from below), so the returned "flight time" is negative. -/

lemma nrStep_neg (T : TransFns ℝ) (hT : T.exp = Real.exp) {vy0 : ℝ} (hv : 0 < vy0)
    {t : ℝ} (ht : t < 0) : nrStep T vy0 0 t < 0 := by
  obtain ⟨E, hEdef⟩ : ∃ E, T.exp (-(BETA * t)) = E := ⟨_, rfl⟩
  have hEval : E = Real.exp (-(3 / 2 * t)) := by
    rw [← hEdef, hT]; norm_num [BETA]
  have hne : -(3 / 2 * t) ≠ 0 := by intro hc; nlinarith
  have hgt1 : 1 < E := by
    rw [hEval]
    have h := Real.add_one_lt_exp hne
    nlinarith
  have hmix : E * (1 + 3 / 2 * t) < 1 := by
    rw [hEval]
    have h1 : (3 / 2 * t) + 1 < Real.exp (3 / 2 * t) :=
      Real.add_one_lt_exp (by intro hc; exact hne (by linarith))
    have h2 : (0 : ℝ) < Real.exp (-(3 / 2 * t)) := Real.exp_pos _
    have h3 : Real.exp (3 / 2 * t) * Real.exp (-(3 / 2 * t)) = 1 := by
      rw [← Real.exp_add]; norm_num
    nlinarith
  have hA : (0 : ℝ) < vy0 + G / BETA := by
    have hGB : (0 : ℝ) < G / BETA := by norm_num [G, BETA]
    linarith
  have hvy : 0 < solveVy T vy0 t := by
    have hval : solveVy T vy0 t = (vy0 + G / BETA) * E - G / BETA := by
      simp only [solveVy, hEdef]
    rw [hval]
    nlinarith
  have hy : solveY T vy0 0 t < 0 := by
    have hval : solveY T vy0 0 t
        = (2 / 3) * (vy0 * (1 - E) + (327 / 50) * (1 + -(3 / 2 * t) - E)) := by
      simp only [solveY, hEdef]; norm_num [G, BETA]; ring
    rw [hval]
    have h7 : 1 + -(3 / 2 * t) - E < 0 := by
      rw [hEval]
      have h := Real.add_one_lt_exp hne
      linarith
    have h8 : vy0 * (1 - E) < 0 := mul_neg_of_pos_of_neg hv (by linarith)
    nlinarith
  have hty : t * solveVy T vy0 t < solveY T vy0 0 t := by
    have hvyval : solveVy T vy0 t = (vy0 + G / BETA) * E - G / BETA := by
      simp only [solveVy, hEdef]
    have hyval : solveY T vy0 0 t
        = 0 + 1 / BETA * (vy0 + G / BETA) * (1 - E) - G * t / BETA := by
      simp only [solveY, hEdef]
    have hdiff : solveY T vy0 0 t - t * solveVy T vy0 t
        = (vy0 + G / BETA) * ((2 / 3) * (1 - E * (1 + 3 / 2 * t))) := by
      rw [hvyval, hyval]; norm_num [G, BETA]; ring
    nlinarith [mul_pos hA (show (0 : ℝ) < (2 / 3) * (1 - E * (1 + 3 / 2 * t)) by nlinarith)]
  have hdivlt : t < solveY T vy0 0 t / solveVy T vy0 t := by
    rw [lt_div_iff hvy]; linarith
  rw [nrStep]; linarith

lemma nrIter_neg (T : TransFns ℝ) (hT : T.exp = Real.exp) {vy0 : ℝ} (hv : 0 < vy0) :
    ∀ (n : ℕ) {t : ℝ}, t < 0 → (nrStep T vy0 0)^[n] t < 0 := by
  intro n
  induction n with
  | zero => intro t ht; simpa using ht
  | succ k ih =>
    intro t ht
    rw [Function.iterate_succ_apply]
    exact ih (nrStep_neg T hT hv ht)

/-- At scenario 2 (`h0 = 0`, seed `0.36`) with vertical launch speed `vy0 = 6`
the very first unguarded Newton update already jumps below `t = 0`:
the seed lies left of the apex, so `y(0.36) > 0` while `vy(0.36) > 0`. -/
lemma first_step_12_neg (T : TransFns ℝ) (hT : T.exp = Real.exp) :
    nrStep T 6 0 (36 / 100) < 0 := by
  have harg : -(BETA * (36 / 100 : ℝ)) = -(27 / 50) := by norm_num [BETA]
  have hy : solveY T 6 0 (36 / 100)
      = (209 / 25) * (1 - Real.exp (-(27 / 50))) - 2943 / 1250 := by
    simp only [solveY, hT, harg]; norm_num [G, BETA]
  have hvyval : solveVy T 6 (36 / 100)
      = (627 / 50) * Real.exp (-(27 / 50)) - 327 / 50 := by
    simp only [solveVy, hT, harg]; norm_num [G, BETA]
  have hE0lt := E0_lt
  have hE0gt := E0_gt
  have hvypos : 0 < solveVy T 6 (36 / 100) := by rw [hvyval]; nlinarith
  have hkey : (36 / 100 : ℝ) * solveVy T 6 (36 / 100) < solveY T 6 0 (36 / 100) := by
    rw [hvyval, hy]; nlinarith
  have hdivlt := (lt_div_iff hvypos).mpr hkey
  rw [nrStep]; linarith

lemma vy0Of_lit_30 (v0 : ℝ) :
    vy0Of (TransFns.mk Real.exp Real.sin Real.cos Real.log Real.sqrt Real.pi) 30 v0
      = v0 / 2 := by
  show v0 * Real.sin (30 * Real.pi / 180) = v0 / 2
  rw [sin30]; ring

lemma vx0Of_lit_30 (v0 : ℝ) :
    vx0Of (TransFns.mk Real.exp Real.sin Real.cos Real.log Real.sqrt Real.pi) 30 v0
      = v0 * (Real.sqrt 3 / 2) := by
  show v0 * Real.cos (30 * Real.pi / 180) = v0 * (Real.sqrt 3 / 2)
  rw [cos30]

lemma time12_neg :
    (solveScenario (TransFns.mk Real.exp Real.sin Real.cos Real.log Real.sqrt Real.pi)
      2 30 12).time < 0 := by
  rw [solveScenario_time_drag _ _ _ (by decide : (2 : ℤ) ≠ 1), solveTime]
  have h6 : vy0Of (TransFns.mk Real.exp Real.sin Real.cos Real.log Real.sqrt Real.pi)
      30 (12 : ℝ) = 6 := by rw [vy0Of_lit_30]; norm_num
  have hH0 : solverH0 (2 : ℤ) = (0 : ℝ) := by norm_num [solverH0]
  have hSeed : solverSeed (2 : ℤ) = (36 / 100 : ℝ) := by norm_num [solverSeed]
  rw [h6, hH0, hSeed, show (15 : ℕ) = 14 + 1 by norm_num, Function.iterate_succ_apply]
  exact nrIter_neg _ rfl (by norm_num) 14 (first_step_12_neg _ rfl)

lemma range12_neg :
    (solveScenario (TransFns.mk Real.exp Real.sin Real.cos Real.log Real.sqrt Real.pi)
      2 30 12).range < 0 := by
  rw [solveScenario_range_drag _ _ _ (by decide : (2 : ℤ) ≠ 1)]
  have ht : solveTime (TransFns.mk Real.exp Real.sin Real.cos Real.log Real.sqrt Real.pi)
      2 30 12 < 0 := by
    have h := time12_neg
    rwa [solveScenario_time_drag _ _ _ (by decide : (2 : ℤ) ≠ 1)] at h
  have hs3 : (0 : ℝ) < Real.sqrt 3 := Real.sqrt_pos.mpr (by norm_num)
  have hvx : 0 < vx0Of (TransFns.mk Real.exp Real.sin Real.cos Real.log Real.sqrt Real.pi)
      30 (12 : ℝ) := by rw [vx0Of_lit_30]; nlinarith
  have hexp : 1 < (TransFns.mk Real.exp Real.sin Real.cos Real.log Real.sqrt
      Real.pi).exp (-(BETA * solveTime (TransFns.mk Real.exp Real.sin Real.cos
        Real.log Real.sqrt Real.pi) 2 30 12)) := by
    show 1 < Real.exp _
    rw [← Real.exp_zero]
    apply Real.exp_lt_exp.mpr
    have hB : (0 : ℝ) < BETA := by norm_num [BETA]
    nlinarith
  have hB : (0 : ℝ) < BETA := by norm_num [BETA]
  exact mul_neg_of_pos_of_neg (div_pos hvx hB) (by linarith)

/-! ### Inputs on which the Newton iteration is exactly stationary

If the height equation vanishes exactly at the seed, the solver returns the
seed itself.  Solving the seed-root condition for the launch speed (at a 30°
angle, where `sin = 1/2`) gives explicit transcendental speeds for scenario 3
and scenario 2 that make every Newton quotient `y / vy_t` exactly `0`. -/

lemma root_fix3 :
    solveY (TransFns.mk Real.exp Real.sin Real.cos Real.log Real.sqrt Real.pi)
      (9753 / 2000 / (1 - Real.exp (-(39 / 40))) - 327 / 50)
      (solverH0 3) (solverSeed 3) = 0 := by
  have hsh : solverH0 (3 : ℤ) = (1 : ℝ) := by norm_num [solverH0]
  have hss : solverSeed (3 : ℤ) = (65 / 100 : ℝ) := by norm_num [solverSeed]
  have harg : -(BETA * (65 / 100 : ℝ)) = -(39 / 40) := by norm_num [BETA]
  have hne : (1 : ℝ) - Real.exp (-(39 / 40)) ≠ 0 :=
    ne_of_gt (by have := E1_lt_one; linarith)
  rw [hsh, hss]
  simp only [solveY]
  rw [harg]
  simp only [G, BETA]
  generalize hD : (1 : ℝ) - Real.exp (-(39 / 40)) = D
  rw [hD] at hne
  field_simp
  linarith [hD]

lemma time_fix3 :
    (solveScenario (TransFns.mk Real.exp Real.sin Real.cos Real.log Real.sqrt Real.pi)
      3 30 (2 * (9753 / 2000 / (1 - Real.exp (-(39 / 40))) - 327 / 50))).time
      = 65 / 100 := by
  have hvy : vy0Of (TransFns.mk Real.exp Real.sin Real.cos Real.log Real.sqrt Real.pi)
      30 (2 * (9753 / 2000 / (1 - Real.exp (-(39 / 40))) - 327 / 50))
      = 9753 / 2000 / (1 - Real.exp (-(39 / 40))) - 327 / 50 := by
    rw [vy0Of_lit_30]; ring
  have h := solveTime_of_seed_root
    (TransFns.mk Real.exp Real.sin Real.cos Real.log Real.sqrt Real.pi)
    3 30 (2 * (9753 / 2000 / (1 - Real.exp (-(39 / 40))) - 327 / 50))
    (by decide) (by rw [hvy]; exact root_fix3)
  rw [h]; norm_num [solverSeed]

lemma v0fix3_pos :
    (0 : ℝ) < 2 * (9753 / 2000 / (1 - Real.exp (-(39 / 40))) - 327 / 50) := by
  have h1 := E1_gt
  have h2 := E1_lt_one
  have hD : (0 : ℝ) < 1 - Real.exp (-(39 / 40)) := by linarith
  have h4 : (327 / 50 : ℝ) < 9753 / 2000 / (1 - Real.exp (-(39 / 40))) := by
    rw [lt_div_iff hD]; nlinarith
  linarith

lemma root_fix2 :
    solveY (TransFns.mk Real.exp Real.sin Real.cos Real.log Real.sqrt Real.pi)
      (8829 / 2500 / (1 - Real.exp (-(27 / 50))) - 327 / 50)
      (solverH0 2) (solverSeed 2) = 0 := by
  have hsh : solverH0 (2 : ℤ) = (0 : ℝ) := by norm_num [solverH0]
  have hss : solverSeed (2 : ℤ) = (36 / 100 : ℝ) := by norm_num [solverSeed]
  have harg : -(BETA * (36 / 100 : ℝ)) = -(27 / 50) := by norm_num [BETA]
  have hne : (1 : ℝ) - Real.exp (-(27 / 50)) ≠ 0 :=
    ne_of_gt (by have := E0_lt_one; linarith)
  rw [hsh, hss]
  simp only [solveY]
  rw [harg]
  simp only [G, BETA]
  generalize hD : (1 : ℝ) - Real.exp (-(27 / 50)) = D
  rw [hD] at hne
  field_simp
  linarith [hD]

lemma time_fix2 :
    (solveScenario (TransFns.mk Real.exp Real.sin Real.cos Real.log Real.sqrt Real.pi)
      2 30 (2 * (8829 / 2500 / (1 - Real.exp (-(27 / 50))) - 327 / 50))).time
      = 36 / 100 := by
  have hvy : vy0Of (TransFns.mk Real.exp Real.sin Real.cos Real.log Real.sqrt Real.pi)
      30 (2 * (8829 / 2500 / (1 - Real.exp (-(27 / 50))) - 327 / 50))
      = 8829 / 2500 / (1 - Real.exp (-(27 / 50))) - 327 / 50 := by
    rw [vy0Of_lit_30]; ring
  have h := solveTime_of_seed_root
    (TransFns.mk Real.exp Real.sin Real.cos Real.log Real.sqrt Real.pi)
    2 30 (2 * (8829 / 2500 / (1 - Real.exp (-(27 / 50))) - 327 / 50))
    (by decide) (by rw [hvy]; exact root_fix2)
  rw [h]; norm_num [solverSeed]

lemma v0fix2_pos :
    (0 : ℝ) < 2 * (8829 / 2500 / (1 - Real.exp (-(27 / 50))) - 327 / 50) := by
  have h1 := E0_gt
  have h2 := E0_lt_one
  have hD : (0 : ℝ) < 1 - Real.exp (-(27 / 50)) := by linarith
  have h4 : (327 / 50 : ℝ) < 8829 / 2500 / (1 - Real.exp (-(27 / 50))) := by
    rw [lt_div_iff hD]; nlinarith
  linarith

lemma v0fix2_lt_12 :
    2 * (8829 / 2500 / (1 - Real.exp (-(27 / 50))) - 327 / 50) < (12 : ℝ) := by
  have h1 := E0_lt
  have h2 := E0_gt
  have hD : (0 : ℝ) < 1 - Real.exp (-(27 / 50)) := by nlinarith
  have h4 : 8829 / 2500 / (1 - Real.exp (-(27 / 50))) < (627 / 50 : ℝ) := by
    rw [div_lt_iff hD]; nlinarith
  linarith

lemma range_fix2_pos :
    0 < (solveScenario (TransFns.mk Real.exp Real.sin Real.cos Real.log Real.sqrt Real.pi)
      2 30 (2 * (8829 / 2500 / (1 - Real.exp (-(27 / 50))) - 327 / 50))).range := by
  rw [solveScenario_range_drag _ _ _ (by decide : (2 : ℤ) ≠ 1)]
  have hst : solveTime (TransFns.mk Real.exp Real.sin Real.cos Real.log Real.sqrt Real.pi)
      2 30 (2 * (8829 / 2500 / (1 - Real.exp (-(27 / 50))) - 327 / 50)) = 36 / 100 := by
    have h := time_fix2
    rwa [solveScenario_time_drag _ _ _ (by decide : (2 : ℤ) ≠ 1)] at h
  rw [hst]
  have harg : -(BETA * (36 / 100 : ℝ)) = -(27 / 50) := by norm_num [BETA]
  rw [harg]
  have hs3 : (0 : ℝ) < Real.sqrt 3 := Real.sqrt_pos.mpr (by norm_num)
  have hvx : 0 < vx0Of (TransFns.mk Real.exp Real.sin Real.cos Real.log Real.sqrt Real.pi)
      30 (2 * (8829 / 2500 / (1 - Real.exp (-(27 / 50))) - 327 / 50)) := by
    rw [vx0Of_lit_30]
    have := v0fix2_pos
    nlinarith
  have hB : (0 : ℝ) < BETA := by norm_num [BETA]
  have hE : Real.exp (-(27 / 50)) < 1 := E0_lt_one
  show 0 < _ / BETA * (1 - Real.exp (-(27 / 50)))
  exact mul_pos (div_pos hvx hB) (by linarith)

/-- The zero-divisor input for the unguarded Newton update: with
`vy0 = (g/beta) * (exp(beta * 0.36) - 1)` the derivative `vy_t` vanishes
exactly at the seed `t = 0.36` (the seed is the apex time). -/
lemma solveVy_zero_at_seed :
    solveVy (TransFns.mk Real.exp Real.sin Real.cos Real.log Real.sqrt Real.pi)
      ((327 / 50) * (Real.exp (27 / 50) - 1)) (36 / 100) = 0 := by
  have harg : -(BETA * (36 / 100 : ℝ)) = -(27 / 50) := by norm_num [BETA]
  simp only [solveVy, harg]
  have h1 : Real.exp (27 / 50) * Real.exp (-(27 / 50)) = 1 := by
    rw [← Real.exp_add]; norm_num
  norm_num [G, BETA]
  nlinarith [h1]

/-! ### Closed form of the drag-branch apex height

The apex time is `tApex = -(1/beta)*log(g/(g+beta*vy0))`; substituting it into
the height equation collapses `exp(-beta*tApex)` to `g/(g+beta*vy0)`, giving a
closed form of the reported maximum height that is strictly increasing in `vy0`. -/

lemma maxHeight_apex (T : TransFns ℝ) (hTe : T.exp = Real.exp)
    (hTl : T.log = Real.log) (id : ℤ) (θ v0 : ℝ) (hvy : 0 < vy0Of T θ v0) :
    maxHeightOf T id θ v0
      = solverH0 id + vy0Of T θ v0 / BETA
        + (G / BETA ^ 2) * Real.log (G / (G + BETA * vy0Of T θ v0)) := by
  obtain ⟨b, hb⟩ : ∃ b, vy0Of T θ v0 = b := ⟨_, rfl⟩
  rw [hb] at hvy
  simp only [maxHeightOf, tApexOf, hTe, hTl, hb]
  have hG : (0 : ℝ) < G := by norm_num [G]
  have hB : (0 : ℝ) < BETA := by norm_num [BETA]
  have hBne : (BETA : ℝ) ≠ 0 := ne_of_gt hB
  have hgb : (0 : ℝ) < G + BETA * b := by nlinarith
  have hgbne : (G : ℝ) + BETA * b ≠ 0 := ne_of_gt hgb
  have hfrac_pos : 0 < G / (G + BETA * b) := div_pos hG hgb
  have hfrac_lt : G / (G + BETA * b) < 1 := by rw [div_lt_one hgb]; nlinarith
  have hlog : Real.log (G / (G + BETA * b)) < 0 := Real.log_neg hfrac_pos hfrac_lt
  have htpos : 0 < -(1 / BETA) * Real.log (G / (G + BETA * b)) := by
    have h1 : (0 : ℝ) < 1 / BETA := by positivity
    nlinarith
  rw [if_pos htpos]
  have harg : -(BETA * (-(1 / BETA) * Real.log (G / (G + BETA * b))))
      = Real.log (G / (G + BETA * b)) := by field_simp
  rw [harg, Real.exp_log hfrac_pos]
  generalize Real.log (G / (G + BETA * b)) = L
  field_simp
  ring

lemma apex_fun_mono {x y : ℝ} (hx : 0 < x) (hxy : x < y) :
    x / BETA + (G / BETA ^ 2) * Real.log (G / (G + BETA * x))
      < y / BETA + (G / BETA ^ 2) * Real.log (G / (G + BETA * y)) := by
  have hG : (0 : ℝ) < G := by norm_num [G]
  have hB : (0 : ℝ) < BETA := by norm_num [BETA]
  have hgx : (0 : ℝ) < G + BETA * x := by nlinarith
  have hgy : (0 : ℝ) < G + BETA * y := by nlinarith
  have hlog : Real.log (G / (G + BETA * x)) - Real.log (G / (G + BETA * y))
      = Real.log ((G + BETA * y) / (G + BETA * x)) := by
    rw [Real.log_div (ne_of_gt hG) (ne_of_gt hgx),
        Real.log_div (ne_of_gt hG) (ne_of_gt hgy),
        Real.log_div (ne_of_gt hgy) (ne_of_gt hgx)]
    ring
  have hrat : 1 < (G + BETA * y) / (G + BETA * x) := by
    rw [lt_div_iff hgx]; nlinarith
  have hlt : Real.log ((G + BETA * y) / (G + BETA * x))
      < (G + BETA * y) / (G + BETA * x) - 1 :=
    Real.log_lt_sub_one_of_pos (by positivity) (ne_of_gt hrat)
  have hsub : (G + BETA * y) / (G + BETA * x) - 1 = BETA * (y - x) / (G + BETA * x) := by
    field_simp; ring
  have hc : (0 : ℝ) < G / BETA ^ 2 := by positivity
  have h1 : (G / BETA ^ 2) * Real.log ((G + BETA * y) / (G + BETA * x))
      < (G / BETA ^ 2) * (BETA * (y - x) / (G + BETA * x)) := by
    rw [← hsub]; exact mul_lt_mul_of_pos_left hlt hc
  have h2 : (G / BETA ^ 2) * (BETA * (y - x) / (G + BETA * x)) < (y - x) / BETA := by
    have hL : (G / BETA ^ 2) * (BETA * (y - x) / (G + BETA * x))
        = G * (y - x) / (BETA * (G + BETA * x)) := by
      field_simp; ring
    rw [hL, div_lt_div_iff (by positivity) hB]
    nlinarith [mul_pos (mul_pos (mul_pos (sub_pos.mpr hxy) hB) hB) hx]
  have key : (G / BETA ^ 2) * (Real.log (G / (G + BETA * x))
      - Real.log (G / (G + BETA * y))) < (y - x) / BETA := by
    rw [hlog]; linarith
  have hdist : (G / BETA ^ 2) * (Real.log (G / (G + BETA * x))
        - Real.log (G / (G + BETA * y)))
      = (G / BETA ^ 2) * Real.log (G / (G + BETA * x))
        - (G / BETA ^ 2) * Real.log (G / (G + BETA * y)) := by ring
  have hdist2 : (y - x) / BETA = y / BETA - x / BETA := by ring
  linarith [key, hdist, hdist2]

/-! ### The trail-history buffer -/

lemma recordTrail_eq {P : Type} (ps : List P) :
    recordTrail ps = ps.drop (ps.length - TRAIL_LENGTH) := by
  induction ps using List.reverseRecOn with
  | nil => rfl
  | append_singleton l a ih =>
    have hstep : recordTrail (l ++ [a]) = pushTrail (recordTrail l) a := by
      simp [recordTrail, List.foldl_append]
    rw [hstep, ih]
    simp only [pushTrail, TRAIL_LENGTH, List.length_append, List.length_drop,
      List.length_cons, List.length_nil]
    by_cases hn : 15 ≤ l.length
    · rw [if_pos (by omega)]
      obtain ⟨x, xs, hd⟩ : ∃ x xs, l.drop (l.length - 15) = x :: xs := by
        have hlen : (l.drop (l.length - 15)).length = 15 := by
          rw [List.length_drop]; omega
        cases hcase : l.drop (l.length - 15) with
        | nil => rw [hcase] at hlen; simp at hlen
        | cons x xs => exact ⟨x, xs, rfl⟩
      have hxs : xs = l.drop (l.length - 14) := by
        have h1 : (l.drop (l.length - 15)).tail = l.drop (l.length - 14) := by
          rw [← List.drop_one, List.drop_drop]
          congr 1
          omega
        rw [hd] at h1
        simpa using h1
      rw [hd]
      have htail : ((x :: xs) ++ [a]).tail = xs ++ [a] := by simp
      rw [htail, hxs, ← List.drop_append_of_le_length (by omega)]
      congr 1
    · rw [if_neg (by omega)]
      have h0 : l.length - 15 = 0 := by omega
      have h1 : l.length + 1 - 15 = 0 := by omega
      simp [h0, h1]

/-- C9: trail-history invariant.  Folding the per-frame update
`push; if length > 15 shift` over any sequence of recorded screen positions
leaves at most 15 entries, and the stored list is exactly the suffix of the
15 most recently recorded positions in chronological order (oldest first);
once more than 15 positions have been recorded the length is exactly 15. -/
theorem C9_trail_bound {P : Type} (ps : List P) :
    (recordTrail ps).length ≤ 15
    ∧ recordTrail ps = ps.drop (ps.length - 15)
    ∧ (15 < ps.length → (recordTrail ps).length = 15) := by
  have h := recordTrail_eq ps
  simp only [TRAIL_LENGTH] at h
  refine ⟨?_, h, ?_⟩
  · rw [h, List.length_drop]; omega
  · intro hlen; rw [h, List.length_drop]; omega

theorem C9_trail_bound_w :
    15 < (List.range 16).length ∧ (recordTrail (List.range 16)).length = 15 :=
  ⟨by decide, (C9_trail_bound (List.range 16)).2.2 (by decide)⟩

/-! ### Claim theorems about the solver -/

/-- C5: for scenario 1, `solveScenario` returns exactly the no-drag closed
forms `time = 2 v0 sin θ / g`, `range = v0 cos θ · time`,
`height = (v0 sin θ)² / (2g)` and `vFinal = v0`, for all angle/speed inputs. -/
theorem C5_scenario1_closed_forms (θ v0 : ℝ) :
    (solveScenario (TransFns.mk Real.exp Real.sin Real.cos Real.log Real.sqrt Real.pi)
        1 θ v0).time = 2 * (v0 * Real.sin (θ * Real.pi / 180)) / (981 / 100)
    ∧ (solveScenario (TransFns.mk Real.exp Real.sin Real.cos Real.log Real.sqrt Real.pi)
        1 θ v0).range
      = v0 * Real.cos (θ * Real.pi / 180)
        * (solveScenario (TransFns.mk Real.exp Real.sin Real.cos Real.log Real.sqrt Real.pi)
            1 θ v0).time
    ∧ (solveScenario (TransFns.mk Real.exp Real.sin Real.cos Real.log Real.sqrt Real.pi)
        1 θ v0).height
      = (v0 * Real.sin (θ * Real.pi / 180)) ^ 2 / (2 * (981 / 100))
    ∧ (solveScenario (TransFns.mk Real.exp Real.sin Real.cos Real.log Real.sqrt Real.pi)
        1 θ v0).vFinal = v0 := by
  refine ⟨?_, ?_, ?_, solveScenario_vFinal_one _ _ _⟩
  · rw [solveScenario_time_one]
    show 2 * (v0 * Real.sin (θ * Real.pi / 180)) / G = _
    norm_num [G]
  · rw [solveScenario_range_one, solveScenario_time_one]
    rfl
  · rw [solveScenario_height_one]
    show v0 * Real.sin (θ * Real.pi / 180) * (v0 * Real.sin (θ * Real.pi / 180)) / (2 * G) = _
    rw [sq]
    norm_num [G]

/-- C10: the solver is total in the scenario identifier and performs no
validation: every id other than 1 takes the linear-drag branch, and every id
other than 3 uses launch height 0 and seed 0.36, so any out-of-range id
(0, 4, ...) yields exactly the result of scenario 2. -/
theorem C10_out_of_range_id (id : ℤ) (θ v0 : ℝ) (h1 : id ≠ 1) (h3 : id ≠ 3) :
    solveScenario (TransFns.mk Real.exp Real.sin Real.cos Real.log Real.sqrt Real.pi)
        id θ v0
      = solveScenario (TransFns.mk Real.exp Real.sin Real.cos Real.log Real.sqrt Real.pi)
          2 θ v0 := by
  have hH : solverH0 id = (solverH0 2 : ℝ) := by simp [solverH0, h3]
  have hS : solverSeed id = (solverSeed 2 : ℝ) := by simp [solverSeed, h3]
  simp only [solveScenario, solveTime, maxHeightOf, if_neg h1,
    if_neg (by decide : ¬(2 : ℤ) = 1), hH, hS]

theorem C10_out_of_range_id_w :
    (0 : ℤ) ≠ 1 ∧ (0 : ℤ) ≠ 3
    ∧ solveScenario (TransFns.mk Real.exp Real.sin Real.cos Real.log Real.sqrt Real.pi)
        0 17 3
      = solveScenario (TransFns.mk Real.exp Real.sin Real.cos Real.log Real.sqrt Real.pi)
          2 17 3 :=
  ⟨by decide, by decide, C10_out_of_range_id 0 17 3 (by decide) (by decide)⟩

/-! ### The concrete scenario-1 telemetry values (claim C4) -/

lemma sqrt2_gt : (1414 : ℝ) / 1000 < Real.sqrt 2 := by
  nlinarith [Real.sq_sqrt (show (0 : ℝ) ≤ 2 by norm_num), Real.sqrt_nonneg 2]

lemma sqrt2_lt : Real.sqrt 2 < (1415 : ℝ) / 1000 := by
  nlinarith [Real.sq_sqrt (show (0 : ℝ) ≤ 2 by norm_num), Real.sqrt_nonneg 2]

lemma time_45_5_eq :
    (solveScenario (TransFns.mk Real.exp Real.sin Real.cos Real.log Real.sqrt Real.pi)
      1 45 5).time = 500 * Real.sqrt 2 / 981 := by
  rw [solveScenario_time_one]
  show 2 * (5 * Real.sin (45 * Real.pi / 180)) / G = _
  rw [sin45]
  norm_num [G]
  ring

lemma range_45_5_eq :
    (solveScenario (TransFns.mk Real.exp Real.sin Real.cos Real.log Real.sqrt Real.pi)
      1 45 5).range = 2500 / 981 := by
  rw [solveScenario_range_one]
  show 5 * Real.cos (45 * Real.pi / 180) * (2 * (5 * Real.sin (45 * Real.pi / 180)) / G) = _
  rw [sin45, cos45]
  have hss : Real.sqrt 2 * Real.sqrt 2 = 2 := Real.mul_self_sqrt (by norm_num)
  rw [show (5 : ℝ) * (Real.sqrt 2 / 2) * (2 * (5 * (Real.sqrt 2 / 2)) / G)
      = Real.sqrt 2 * Real.sqrt 2 * (25 / (2 * G)) from by ring, hss]
  norm_num [G]

lemma height_45_5_eq :
    (solveScenario (TransFns.mk Real.exp Real.sin Real.cos Real.log Real.sqrt Real.pi)
      1 45 5).height = 625 / 981 := by
  rw [solveScenario_height_one]
  show 5 * Real.sin (45 * Real.pi / 180) * (5 * Real.sin (45 * Real.pi / 180)) / (2 * G) = _
  rw [sin45]
  have hss : Real.sqrt 2 * Real.sqrt 2 = 2 := Real.mul_self_sqrt (by norm_num)
  rw [show (5 : ℝ) * (Real.sqrt 2 / 2) * (5 * (Real.sqrt 2 / 2)) / (2 * G)
      = Real.sqrt 2 * Real.sqrt 2 * (25 / (8 * G)) from by ring, hss]
  norm_num [G]

/-- C4 (corrected): `solveScenario(1, 45, 5)` returns `time ≈ 0.72 s`,
`height ≈ 0.64 m` and `vFinal = 5.0` as claimed (each within ±0.01), but the
range is `2500/981 ≈ 2.55 m` (the no-drag closed form `v0² sin(2θ)/g`),
within ±0.01 of 2.55 — not ≈ 1.80 m as the specification states. -/
theorem C4_concrete_values_amended :
    |(solveScenario (TransFns.mk Real.exp Real.sin Real.cos Real.log Real.sqrt Real.pi)
        1 45 5).time - 72 / 100| ≤ 1 / 100
    ∧ |(solveScenario (TransFns.mk Real.exp Real.sin Real.cos Real.log Real.sqrt Real.pi)
        1 45 5).range - 255 / 100| ≤ 1 / 100
    ∧ |(solveScenario (TransFns.mk Real.exp Real.sin Real.cos Real.log Real.sqrt Real.pi)
        1 45 5).height - 64 / 100| ≤ 1 / 100
    ∧ (solveScenario (TransFns.mk Real.exp Real.sin Real.cos Real.log Real.sqrt Real.pi)
        1 45 5).vFinal = 5 := by
  refine ⟨?_, ?_, ?_, solveScenario_vFinal_one _ _ _⟩
  · rw [time_45_5_eq, abs_le]
    constructor <;> nlinarith [sqrt2_gt, sqrt2_lt]
  · rw [range_45_5_eq, abs_le]
    constructor <;> norm_num
  · rw [height_45_5_eq, abs_le]
    constructor <;> norm_num

/-- C4 (counterexample): the claimed `range ≈ 1.80 m (±0.01)` for
`solveScenario(1, 45, 5)` is false — the computed range `2500/981 ≈ 2.55 m`
misses 1.80 by about 0.75 m. -/
theorem C4_counterexample_range :
    ¬ |(solveScenario (TransFns.mk Real.exp Real.sin Real.cos Real.log Real.sqrt Real.pi)
        1 45 5).range - 18 / 10| ≤ 1 / 100 := by
  rw [range_45_5_eq]
  intro h
  rw [abs_le] at h
  have h2 := h.2
  norm_num at h2

lemma evalDy_drag_angle (T : TransFns α) {id : ℤ} (θ v0 t : α) (h : id ≠ 1) :
    evalDy T id v0 (angleRadOf T θ) t = solveY T (vy0Of T θ v0) 0 t := by
  rw [evalDy_drag T v0 (angleRadOf T θ) t h]; rfl

lemma evalDy_one_angle (θ v0 t : ℝ) :
    evalDy (TransFns.mk Real.exp Real.sin Real.cos Real.log Real.sqrt Real.pi)
        1 v0 (angleRadOf (TransFns.mk Real.exp Real.sin Real.cos Real.log
          Real.sqrt Real.pi) θ) t
      = vy0Of (TransFns.mk Real.exp Real.sin Real.cos Real.log Real.sqrt Real.pi) θ v0
          * t - (1 / 2) * G * t ^ 2 := by
  simp [evalDy, vy0Of]

/-- For scenario 1 the evaluator's vertical displacement formula vanishes
exactly at the solver's flight time `2·vy0/g`. -/
lemma scen1_dy_time_zero (θ v0 : ℝ) :
    evalDy (TransFns.mk Real.exp Real.sin Real.cos Real.log Real.sqrt Real.pi)
        1 v0 (angleRadOf (TransFns.mk Real.exp Real.sin Real.cos Real.log
          Real.sqrt Real.pi) θ)
        ((solveScenario (TransFns.mk Real.exp Real.sin Real.cos Real.log Real.sqrt
          Real.pi) 1 θ v0).time)
      = 0 := by
  rw [solveScenario_time_one, evalDy_one_angle]
  have hG : (G : ℝ) ≠ 0 := by norm_num [G]
  field_simp
  ring

/-- C8: the linear-drag branch performs 15 unguarded Newton updates
`t ← t - y/vy_t` (no fallback when `vy_t = 0`), and the zero divisor is
reachable under the stated preconditions: at scenario 2, angle 30°, speed
`v0 = (2g/β)(e^{β·0.36} − 1) ≈ 9.37 > 0`, the derivative `vy_t` is exactly `0`
at the seed `t = 0.36`, i.e. in the first of the 15 iteration steps. -/
theorem C8_newton_division_unguarded_and_reachable :
    (∀ vy0 h0 t : ℝ,
      nrStep (TransFns.mk Real.exp Real.sin Real.cos Real.log Real.sqrt Real.pi) vy0 h0 t
        = t - solveY (TransFns.mk Real.exp Real.sin Real.cos Real.log Real.sqrt Real.pi)
              vy0 h0 t
            / solveVy (TransFns.mk Real.exp Real.sin Real.cos Real.log Real.sqrt Real.pi)
              vy0 t)
    ∧ (∀ θ v0 : ℝ,
      (solveScenario (TransFns.mk Real.exp Real.sin Real.cos Real.log Real.sqrt Real.pi)
          2 θ v0).time
        = (nrStep (TransFns.mk Real.exp Real.sin Real.cos Real.log Real.sqrt Real.pi)
            (vy0Of (TransFns.mk Real.exp Real.sin Real.cos Real.log Real.sqrt Real.pi)
              θ v0) 0)^[15] (36 / 100))
    ∧ (0 : ℝ) < 30 ∧ (30 : ℝ) < 90
    ∧ (0 : ℝ) < 327 / 25 * (Real.exp (27 / 50) - 1)
    ∧ solveVy (TransFns.mk Real.exp Real.sin Real.cos Real.log Real.sqrt Real.pi)
        (vy0Of (TransFns.mk Real.exp Real.sin Real.cos Real.log Real.sqrt Real.pi)
          30 (327 / 25 * (Real.exp (27 / 50) - 1))) (36 / 100) = 0 := by
  refine ⟨fun vy0 h0 t => rfl, ?_, by norm_num, by norm_num, ?_, ?_⟩
  · intro θ v0
    rw [solveScenario_time_drag _ _ _ (by decide : (2 : ℤ) ≠ 1), solveTime]
    have hH : solverH0 (2 : ℤ) = (0 : ℝ) := by norm_num [solverH0]
    have hS : solverSeed (2 : ℤ) = (36 / 100 : ℝ) := by norm_num [solverSeed]
    rw [hH, hS]
  · have h := exp2750_gt; nlinarith
  · rw [vy0Of_lit_30,
      show (327 / 25 * (Real.exp (27 / 50) - 1) : ℝ) / 2
        = 327 / 50 * (Real.exp (27 / 50) - 1) from by ring]
    exact solveVy_zero_at_seed

/-- C2 (counterexample): the claim that the returned `time` is the duration
until the droplet returns to its emission height (vertical displacement
`dy = 0` at `t = time`) fails for scenario 3.  At angle 30° and the explicit
speed `v0 ≈ 2.58` for which the Newton seed `0.65` is an exact root of the
solver's height equation, the solver returns `time = 0.65` and the physical
model's `dy` at that time is exactly `-1` (one full metre below the emission
height), not `0`. -/
theorem C2_counterexample_scenario3 :
    (0 : ℝ) < 2 * (9753 / 2000 / (1 - Real.exp (-(39 / 40))) - 327 / 50)
    ∧ evalDy (TransFns.mk Real.exp Real.sin Real.cos Real.log Real.sqrt Real.pi) 3
        (2 * (9753 / 2000 / (1 - Real.exp (-(39 / 40))) - 327 / 50))
        (angleRadOf (TransFns.mk Real.exp Real.sin Real.cos Real.log Real.sqrt Real.pi) 30)
        ((solveScenario (TransFns.mk Real.exp Real.sin Real.cos Real.log Real.sqrt Real.pi)
            3 30 (2 * (9753 / 2000 / (1 - Real.exp (-(39 / 40))) - 327 / 50))).time)
      = -1 := by
  refine ⟨v0fix3_pos, ?_⟩
  rw [time_fix3, evalDy_drag_angle _ _ _ _ (by decide : (3 : ℤ) ≠ 1)]
  rw [show vy0Of (TransFns.mk Real.exp Real.sin Real.cos Real.log Real.sqrt Real.pi)
        30 (2 * (9753 / 2000 / (1 - Real.exp (-(39 / 40))) - 327 / 50))
      = 9753 / 2000 / (1 - Real.exp (-(39 / 40))) - 327 / 50 from by
    rw [vy0Of_lit_30]; ring]
  have h1 := root_fix3
  have h2 : solverH0 (3 : ℤ) = (1 : ℝ) := by norm_num [solverH0]
  have h3 : solverSeed (3 : ℤ) = (65 / 100 : ℝ) := by norm_num [solverSeed]
  rw [h2, h3] at h1
  have h4 := solveY_via_zero
    (TransFns.mk Real.exp Real.sin Real.cos Real.log Real.sqrt Real.pi)
    (9753 / 2000 / (1 - Real.exp (-(39 / 40))) - 327 / 50) 1 (65 / 100)
  linarith

/-- C2 (amended): for scenario 1 the returned `time` does satisfy
`dy(time) = 0` exactly (return to emission height).  For the drag scenarios
the solver roots the equation `h0s + dy(t) = 0` with its own reference height
`h0s` (`0` for ids ≠ 3, `1.0` for id 3), so the targeted flight endpoint is
`dy = -h0s`: the droplet's displacement at the returned time differs from
`-h0s` by exactly the Newton residual of the height equation — for scenario 2
that is a return to emission height up to the residual, but for scenario 3 the
flight is solved down to 1.0 m below the emission height, not back to it. -/
theorem C2_flight_end_amended (id : ℤ) (θ v0 : ℝ)
    (hid : id = 1 ∨ id = 2 ∨ id = 3) (hθ0 : 0 < θ) (hθ90 : θ < 90) (hv : 0 < v0) :
    (id = 1 →
      evalDy (TransFns.mk Real.exp Real.sin Real.cos Real.log Real.sqrt Real.pi) 1 v0
        (angleRadOf (TransFns.mk Real.exp Real.sin Real.cos Real.log Real.sqrt Real.pi) θ)
        ((solveScenario (TransFns.mk Real.exp Real.sin Real.cos Real.log Real.sqrt Real.pi)
            1 θ v0).time) = 0)
    ∧ (id ≠ 1 →
      |evalDy (TransFns.mk Real.exp Real.sin Real.cos Real.log Real.sqrt Real.pi) id v0
          (angleRadOf (TransFns.mk Real.exp Real.sin Real.cos Real.log Real.sqrt Real.pi) θ)
          ((solveScenario (TransFns.mk Real.exp Real.sin Real.cos Real.log Real.sqrt Real.pi)
              id θ v0).time)
        - -(solverH0 id)|
      = |solveY (TransFns.mk Real.exp Real.sin Real.cos Real.log Real.sqrt Real.pi)
          (vy0Of (TransFns.mk Real.exp Real.sin Real.cos Real.log Real.sqrt Real.pi) θ v0)
          (solverH0 id)
          ((solveScenario (TransFns.mk Real.exp Real.sin Real.cos Real.log Real.sqrt Real.pi)
              id θ v0).time)|) := by
  constructor
  · intro h1
    exact scen1_dy_time_zero θ v0
  · intro h1
    rw [evalDy_drag_angle _ _ _ _ h1]
    congr 1
    conv_rhs => rw [solveY_via_zero]
    ring

theorem C2_flight_end_amended_w :
    ((2 : ℤ) = 1 ∨ (2 : ℤ) = 2 ∨ (2 : ℤ) = 3) ∧ (0 : ℝ) < 45 ∧ (45 : ℝ) < 90
    ∧ (0 : ℝ) < 5
    ∧ (((2 : ℤ) = 1 →
      evalDy (TransFns.mk Real.exp Real.sin Real.cos Real.log Real.sqrt Real.pi) 1 5
        (angleRadOf (TransFns.mk Real.exp Real.sin Real.cos Real.log Real.sqrt Real.pi) 45)
        ((solveScenario (TransFns.mk Real.exp Real.sin Real.cos Real.log Real.sqrt Real.pi)
            1 45 5).time) = 0)
    ∧ ((2 : ℤ) ≠ 1 →
      |evalDy (TransFns.mk Real.exp Real.sin Real.cos Real.log Real.sqrt Real.pi) 2 5
          (angleRadOf (TransFns.mk Real.exp Real.sin Real.cos Real.log Real.sqrt Real.pi) 45)
          ((solveScenario (TransFns.mk Real.exp Real.sin Real.cos Real.log Real.sqrt Real.pi)
              2 45 5).time)
        - -(solverH0 2)|
      = |solveY (TransFns.mk Real.exp Real.sin Real.cos Real.log Real.sqrt Real.pi)
          (vy0Of (TransFns.mk Real.exp Real.sin Real.cos Real.log Real.sqrt Real.pi) 45 5)
          (solverH0 2)
          ((solveScenario (TransFns.mk Real.exp Real.sin Real.cos Real.log Real.sqrt Real.pi)
              2 45 5).time)|)) :=
  ⟨by norm_num, by norm_num, by norm_num, by norm_num,
    C2_flight_end_amended 2 45 5 (by norm_num) (by norm_num) (by norm_num) (by norm_num)⟩

/-- C3 (counterexample): `time > 0 ∧ range ≥ 0` fails for a drag scenario
inside the stated preconditions `0° < angle < 90°, v0 > 0`.  At scenario 2,
angle 30°, `v0 = 12` the seed `0.36` lies left of the apex, the first Newton
update jumps below `t = 0`, and every later update stays negative:
the solver returns `time < 0` and `range < 0`. -/
theorem C3_counterexample_large_speed :
    (0 : ℝ) < 30 ∧ (30 : ℝ) < 90 ∧ (0 : ℝ) < 12
    ∧ (solveScenario (TransFns.mk Real.exp Real.sin Real.cos Real.log Real.sqrt Real.pi)
        2 30 12).time < 0
    ∧ (solveScenario (TransFns.mk Real.exp Real.sin Real.cos Real.log Real.sqrt Real.pi)
        2 30 12).range < 0 :=
  ⟨by norm_num, by norm_num, by norm_num, time12_neg, range12_neg⟩

/-- C3 (amended): for scenario 1, `time > 0` and `range > 0` hold for every
angle in (0°, 90°) and every `v0 > 0`.  For the drag scenarios the fixed
15-iteration Newton solve from the hardcoded seeds does not guarantee this for
every `v0 > 0` (see the counterexample at scenario 2, 30°, v0 = 12); it does
land on a positive flight time for favourable speeds, e.g. scenario 2 at 30°
with the speed `v0 ≈ 3.85` whose seed is an exact root. -/
theorem C3_positivity_amended (θ v0 : ℝ) (hθ0 : 0 < θ) (hθ90 : θ < 90) (hv : 0 < v0) :
    (0 < (solveScenario (TransFns.mk Real.exp Real.sin Real.cos Real.log Real.sqrt Real.pi)
        1 θ v0).time
      ∧ 0 < (solveScenario (TransFns.mk Real.exp Real.sin Real.cos Real.log Real.sqrt
          Real.pi) 1 θ v0).range)
    ∧ (0 < (solveScenario (TransFns.mk Real.exp Real.sin Real.cos Real.log Real.sqrt
          Real.pi) 2 30 (2 * (8829 / 2500 / (1 - Real.exp (-(27 / 50))) - 327 / 50))).time
      ∧ 0 < (solveScenario (TransFns.mk Real.exp Real.sin Real.cos Real.log Real.sqrt
          Real.pi) 2 30 (2 * (8829 / 2500 / (1 - Real.exp (-(27 / 50))) - 327 / 50))).range) := by
  constructor
  · have hsin := sin_angleRad_pos hθ0 hθ90
    have hcos := cos_angleRad_pos hθ0 hθ90
    have hG : (0 : ℝ) < G := by norm_num [G]
    have hvy : 0 < vy0Of (TransFns.mk Real.exp Real.sin Real.cos Real.log Real.sqrt
        Real.pi) θ v0 := mul_pos hv hsin
    have hvx : 0 < vx0Of (TransFns.mk Real.exp Real.sin Real.cos Real.log Real.sqrt
        Real.pi) θ v0 := mul_pos hv hcos
    constructor
    · rw [solveScenario_time_one]
      exact div_pos (by linarith) hG
    · rw [solveScenario_range_one]
      exact mul_pos hvx (div_pos (by linarith) hG)
  · refine ⟨?_, range_fix2_pos⟩
    rw [time_fix2]
    norm_num

theorem C3_positivity_amended_w :
    (0 : ℝ) < 45 ∧ (45 : ℝ) < 90 ∧ (0 : ℝ) < 5
    ∧ (0 < (solveScenario (TransFns.mk Real.exp Real.sin Real.cos Real.log Real.sqrt
          Real.pi) 1 45 5).time
      ∧ 0 < (solveScenario (TransFns.mk Real.exp Real.sin Real.cos Real.log Real.sqrt
          Real.pi) 1 45 5).range) :=
  ⟨by norm_num, by norm_num, by norm_num,
    (C3_positivity_amended 45 5 (by norm_num) (by norm_num) (by norm_num)).1⟩

/-- C6 (counterexample): the solver's range is not strictly increasing in the
initial speed for the drag scenarios.  At scenario 2, angle 30°, the explicit
speed `v0a ≈ 3.85` (whose Newton seed is an exact root) gives a positive
range, while the larger speed `v0b = 12` drives the Newton iteration to the
spurious root below `t = 0` and yields a negative range: `v0a < v0b` but
`range(v0b) < range(v0a)`. -/
theorem C6_counterexample_range_monotonicity :
    (0 : ℝ) < 2 * (8829 / 2500 / (1 - Real.exp (-(27 / 50))) - 327 / 50)
    ∧ 2 * (8829 / 2500 / (1 - Real.exp (-(27 / 50))) - 327 / 50) < (12 : ℝ)
    ∧ (solveScenario (TransFns.mk Real.exp Real.sin Real.cos Real.log Real.sqrt Real.pi)
        2 30 12).range
      < (solveScenario (TransFns.mk Real.exp Real.sin Real.cos Real.log Real.sqrt Real.pi)
          2 30 (2 * (8829 / 2500 / (1 - Real.exp (-(27 / 50))) - 327 / 50))).range :=
  ⟨v0fix2_pos, v0fix2_lt_12, lt_trans range12_neg range_fix2_pos⟩

/-- C6 (amended): for every scenario and every angle in (0°, 90°), the
reported maximum height is strictly increasing in the initial speed (for the
drag scenarios via the closed form of the apex height), and for scenario 1
the range is strictly increasing as well; strict monotonicity of the range
fails for the drag scenarios (see the counterexample). -/
theorem C6_monotonicity_amended (id : ℤ) (θ : ℝ) {va vb : ℝ}
    (hid : id = 1 ∨ id = 2 ∨ id = 3) (hθ0 : 0 < θ) (hθ90 : θ < 90)
    (hva : 0 < va) (hab : va < vb) :
    (solveScenario (TransFns.mk Real.exp Real.sin Real.cos Real.log Real.sqrt Real.pi)
        id θ va).height
      < (solveScenario (TransFns.mk Real.exp Real.sin Real.cos Real.log Real.sqrt Real.pi)
          id θ vb).height
    ∧ (id = 1 →
      (solveScenario (TransFns.mk Real.exp Real.sin Real.cos Real.log Real.sqrt Real.pi)
          id θ va).range
        < (solveScenario (TransFns.mk Real.exp Real.sin Real.cos Real.log Real.sqrt Real.pi)
            id θ vb).range) := by
  have hsin := sin_angleRad_pos hθ0 hθ90
  have hcos := cos_angleRad_pos hθ0 hθ90
  have hG : (0 : ℝ) < G := by norm_num [G]
  have hvya : 0 < vy0Of (TransFns.mk Real.exp Real.sin Real.cos Real.log Real.sqrt
      Real.pi) θ va := mul_pos hva hsin
  have hvy_lt : vy0Of (TransFns.mk Real.exp Real.sin Real.cos Real.log Real.sqrt
        Real.pi) θ va
      < vy0Of (TransFns.mk Real.exp Real.sin Real.cos Real.log Real.sqrt Real.pi) θ vb :=
    mul_lt_mul_of_pos_right hab hsin
  constructor
  · have hdrag : ∀ i : ℤ, i ≠ 1 →
        (solveScenario (TransFns.mk Real.exp Real.sin Real.cos Real.log Real.sqrt Real.pi)
            i θ va).height
          < (solveScenario (TransFns.mk Real.exp Real.sin Real.cos Real.log Real.sqrt
              Real.pi) i θ vb).height := by
      intro i hi
      rw [solveScenario_height_drag _ _ _ hi, solveScenario_height_drag _ _ _ hi,
        maxHeight_apex _ rfl rfl i θ va hvya,
        maxHeight_apex _ rfl rfl i θ vb (lt_trans hvya hvy_lt)]
      have := apex_fun_mono hvya hvy_lt
      linarith
    rcases hid with h1 | h2 | h3
    · subst h1
      rw [solveScenario_height_one, solveScenario_height_one]
      apply (div_lt_div_right (by norm_num [G] : (0 : ℝ) < 2 * G)).mpr
      nlinarith
    · subst h2; exact hdrag 2 (by decide)
    · subst h3; exact hdrag 3 (by decide)
  · intro h1
    subst h1
    rw [solveScenario_range_one, solveScenario_range_one]
    have hvxa : 0 < vx0Of (TransFns.mk Real.exp Real.sin Real.cos Real.log Real.sqrt
        Real.pi) θ va := mul_pos hva hcos
    have hvx_lt : vx0Of (TransFns.mk Real.exp Real.sin Real.cos Real.log Real.sqrt
          Real.pi) θ va
        < vx0Of (TransFns.mk Real.exp Real.sin Real.cos Real.log Real.sqrt Real.pi)
            θ vb :=
      mul_lt_mul_of_pos_right hab hcos
    have h2a : 0 < 2 * vy0Of (TransFns.mk Real.exp Real.sin Real.cos Real.log Real.sqrt
        Real.pi) θ va / G := div_pos (by linarith) hG
    have hdlt : 2 * vy0Of (TransFns.mk Real.exp Real.sin Real.cos Real.log Real.sqrt
          Real.pi) θ va / G
        < 2 * vy0Of (TransFns.mk Real.exp Real.sin Real.cos Real.log Real.sqrt Real.pi)
            θ vb / G :=
      (div_lt_div_right hG).mpr (by linarith)
    exact mul_lt_mul'' hvx_lt hdlt (le_of_lt hvxa) (le_of_lt h2a)

theorem C6_monotonicity_amended_w :
    ((1 : ℤ) = 1 ∨ (1 : ℤ) = 2 ∨ (1 : ℤ) = 3) ∧ (0 : ℝ) < 45 ∧ (45 : ℝ) < 90
    ∧ (0 : ℝ) < 4 ∧ (4 : ℝ) < 5
    ∧ (solveScenario (TransFns.mk Real.exp Real.sin Real.cos Real.log Real.sqrt Real.pi)
        1 45 4).height
      < (solveScenario (TransFns.mk Real.exp Real.sin Real.cos Real.log Real.sqrt Real.pi)
          1 45 5).height :=
  ⟨by norm_num, by norm_num, by norm_num, by norm_num, by norm_num,
    (C6_monotonicity_amended 1 45 (by norm_num) (by norm_num) (by norm_num)
      (by norm_num) (by norm_num)).1⟩

/-! ### Case analysis of the evaluator -/

lemma calculatePhysics_physX (T : TransFns α) (p : Particle α) (now : α)
    (s : PhysState α) (h : calculatePhysics T p now = some s) :
    s.physX = |evalDx T p.scenario p.velocity p.angle ((now - p.startTime) / 1000)| := by
  simp only [calculatePhysics] at h
  split at h
  · simp at h
  · split at h
    · simp at h
    · split at h
      · injection h with h2; subst h2; rfl
      · injection h with h2; subst h2; rfl

/-- C7: impact detection policy.  Whenever the evaluator returns a state, the
impact flag is set exactly when the physical height `h0 + dy` is at or below
the fixed 0.45 m plane AND the vertical velocity is negative; in particular
impact is never reported while the particle is above 0.45 m (whatever the
velocity sign) and never while it is ascending. -/
theorem C7_impact_policy (p : Particle ℝ) (now : ℝ) (s : PhysState ℝ)
    (h : calculatePhysics (TransFns.mk Real.exp Real.sin Real.cos Real.log Real.sqrt
      Real.pi) p now = some s) :
    (s.impact = true
      ↔ (p.h0 + evalDy (TransFns.mk Real.exp Real.sin Real.cos Real.log Real.sqrt
            Real.pi) p.scenario p.velocity p.angle ((now - p.startTime) / 1000)
          ≤ 45 / 100
        ∧ evalVy (TransFns.mk Real.exp Real.sin Real.cos Real.log Real.sqrt Real.pi)
            p.scenario p.velocity p.angle ((now - p.startTime) / 1000) < 0)) := by
  simp only [calculatePhysics] at h
  split at h
  · simp at h
  · split at h
    · simp at h
    · split at h
      next hcond =>
        injection h with h2; subst h2
        exact iff_of_true rfl hcond
      next hcond =>
        injection h with h2; subst h2
        exact iff_of_false (by simp) hcond

theorem C7_impact_policy_w :
    calculatePhysics (TransFns.mk Real.exp Real.sin Real.cos Real.log Real.sqrt Real.pi)
        (⟨0, 45 / 100, 1, 0, 1, 0, 0, false, 1, []⟩ : Particle ℝ) 1000
      = some (⟨11 / 50, 1827 / 2500, 1, 45 / 100, true,
          Real.sqrt (972361 / 10000)⟩ : PhysState ℝ)
    ∧ ((true : Bool) = true
      ↔ ((45 / 100 : ℝ) + evalDy (TransFns.mk Real.exp Real.sin Real.cos Real.log
            Real.sqrt Real.pi) 1 1 0 ((1000 - 0) / 1000) ≤ 45 / 100
        ∧ evalVy (TransFns.mk Real.exp Real.sin Real.cos Real.log Real.sqrt Real.pi)
            1 1 0 ((1000 - 0) / 1000) < 0)) := by
  have hc : cfgOf (α := ℝ) 1 = some ⟨1, 17 / 100, 45 / 100, 1, "S1"⟩ := rfl
  have heq : calculatePhysics (TransFns.mk Real.exp Real.sin Real.cos Real.log Real.sqrt
        Real.pi) (⟨0, 45 / 100, 1, 0, 1, 0, 0, false, 1, []⟩ : Particle ℝ) 1000
      = some (⟨11 / 50, 1827 / 2500, 1, 45 / 100, true,
          Real.sqrt (972361 / 10000)⟩ : PhysState ℝ) := by
    simp only [calculatePhysics, hc]
    norm_num [evalDx, evalDy, evalVx, evalVy, hScale, GROUND_LINE_NORM,
      NOZZLE_TOP_NORM, G, BETA, Real.sin_zero, Real.cos_zero]
  exact ⟨heq, C7_impact_policy _ 1000 _ heq⟩

/-! ### Cross-consistency of the solver and the evaluator (claim C1) -/

lemma cfg_h0_one : ((cfgOf (α := ℝ) 1).map Config.h0).getD 0 = 45 / 100 := rfl

/-- C1: cross-consistency of the two independently coded formula sets.  For
every scenario, angle in (0°, 90°) and speed `v0 > 0`, with `r` the solver's
result and the evaluator run on the jitter-free particle at elapsed time
`r.time`: the evaluator's horizontal displacement equals `r.range` exactly
(and its absolute value equals `r.range` whenever `r.time ≥ 0`, in particular
the `physX` field of the state returned by `calculatePhysics`); and the
evaluator's physical height `h0 + dy` at that time equals the height at which
the solver's flight ends — exactly `0.45` for scenario 1, and for the drag
scenarios it differs from the end height `cfg.h0 - h0s` by exactly the Newton
residual of the solver's height equation at `r.time` (the claim's "small
numeric tolerance"). -/
theorem C1_solver_evaluator_consistency (id : ℤ) (θ v0 : ℝ)
    (hid : id = 1 ∨ id = 2 ∨ id = 3) (hθ0 : 0 < θ) (hθ90 : θ < 90) (hv : 0 < v0) :
    (evalDx (TransFns.mk Real.exp Real.sin Real.cos Real.log Real.sqrt Real.pi) id v0
        (angleRadOf (TransFns.mk Real.exp Real.sin Real.cos Real.log Real.sqrt Real.pi) θ)
        ((solveScenario (TransFns.mk Real.exp Real.sin Real.cos Real.log Real.sqrt Real.pi)
            id θ v0).time)
      = (solveScenario (TransFns.mk Real.exp Real.sin Real.cos Real.log Real.sqrt Real.pi)
          id θ v0).range)
    ∧ (0 ≤ (solveScenario (TransFns.mk Real.exp Real.sin Real.cos Real.log Real.sqrt
          Real.pi) id θ v0).time →
      |evalDx (TransFns.mk Real.exp Real.sin Real.cos Real.log Real.sqrt Real.pi) id v0
          (angleRadOf (TransFns.mk Real.exp Real.sin Real.cos Real.log Real.sqrt Real.pi) θ)
          ((solveScenario (TransFns.mk Real.exp Real.sin Real.cos Real.log Real.sqrt
              Real.pi) id θ v0).time)|
        = (solveScenario (TransFns.mk Real.exp Real.sin Real.cos Real.log Real.sqrt
            Real.pi) id θ v0).range)
    ∧ (id = 1 →
      ((cfgOf (α := ℝ) id).map Config.h0).getD 0
          + evalDy (TransFns.mk Real.exp Real.sin Real.cos Real.log Real.sqrt Real.pi) id
              v0 (angleRadOf (TransFns.mk Real.exp Real.sin Real.cos Real.log Real.sqrt
                Real.pi) θ)
              ((solveScenario (TransFns.mk Real.exp Real.sin Real.cos Real.log Real.sqrt
                  Real.pi) id θ v0).time)
        = 45 / 100)
    ∧ (id ≠ 1 →
      |(((cfgOf (α := ℝ) id).map Config.h0).getD 0
          + evalDy (TransFns.mk Real.exp Real.sin Real.cos Real.log Real.sqrt Real.pi) id
              v0 (angleRadOf (TransFns.mk Real.exp Real.sin Real.cos Real.log Real.sqrt
                Real.pi) θ)
              ((solveScenario (TransFns.mk Real.exp Real.sin Real.cos Real.log Real.sqrt
                  Real.pi) id θ v0).time))
        - (((cfgOf (α := ℝ) id).map Config.h0).getD 0 - solverH0 id)|
      = |solveY (TransFns.mk Real.exp Real.sin Real.cos Real.log Real.sqrt Real.pi)
          (vy0Of (TransFns.mk Real.exp Real.sin Real.cos Real.log Real.sqrt Real.pi) θ v0)
          (solverH0 id)
          ((solveScenario (TransFns.mk Real.exp Real.sin Real.cos Real.log Real.sqrt
              Real.pi) id θ v0).time)|)
    ∧ (0 ≤ (solveScenario (TransFns.mk Real.exp Real.sin Real.cos Real.log Real.sqrt
          Real.pi) id θ v0).time →
      ∀ s : PhysState ℝ,
        calculatePhysics (TransFns.mk Real.exp Real.sin Real.cos Real.log Real.sqrt
            Real.pi)
            (jitterFree (TransFns.mk Real.exp Real.sin Real.cos Real.log Real.sqrt
              Real.pi) id θ v0)
            (1000 * (solveScenario (TransFns.mk Real.exp Real.sin Real.cos Real.log
              Real.sqrt Real.pi) id θ v0).time)
          = some s →
        s.physX = (solveScenario (TransFns.mk Real.exp Real.sin Real.cos Real.log
            Real.sqrt Real.pi) id θ v0).range) := by
  have hsin := sin_angleRad_pos hθ0 hθ90
  have hcos := cos_angleRad_pos hθ0 hθ90
  have hG : (0 : ℝ) < G := by norm_num [G]
  have hB : (0 : ℝ) < BETA := by norm_num [BETA]
  have hvy : 0 < vy0Of (TransFns.mk Real.exp Real.sin Real.cos Real.log Real.sqrt
      Real.pi) θ v0 := mul_pos hv hsin
  have hvx : 0 < vx0Of (TransFns.mk Real.exp Real.sin Real.cos Real.log Real.sqrt
      Real.pi) θ v0 := mul_pos hv hcos
  have h1 : evalDx (TransFns.mk Real.exp Real.sin Real.cos Real.log Real.sqrt Real.pi)
      id v0 (angleRadOf (TransFns.mk Real.exp Real.sin Real.cos Real.log Real.sqrt
        Real.pi) θ)
      ((solveScenario (TransFns.mk Real.exp Real.sin Real.cos Real.log Real.sqrt Real.pi)
        id θ v0).time)
      = (solveScenario (TransFns.mk Real.exp Real.sin Real.cos Real.log Real.sqrt
          Real.pi) id θ v0).range := by
    rcases hid with h | h | h
    · subst h
      rw [solveScenario_time_one, solveScenario_range_one]
      rfl
    · subst h
      rw [solveScenario_time_drag _ _ _ (by decide : (2 : ℤ) ≠ 1),
        solveScenario_range_drag _ _ _ (by decide : (2 : ℤ) ≠ 1)]
      rfl
    · subst h
      rw [solveScenario_time_drag _ _ _ (by decide : (3 : ℤ) ≠ 1),
        solveScenario_range_drag _ _ _ (by decide : (3 : ℤ) ≠ 1)]
      rfl
  have hdragrange : ∀ i : ℤ, i ≠ 1 →
      0 ≤ (solveScenario (TransFns.mk Real.exp Real.sin Real.cos Real.log Real.sqrt
          Real.pi) i θ v0).time →
      0 ≤ (solveScenario (TransFns.mk Real.exp Real.sin Real.cos Real.log Real.sqrt
          Real.pi) i θ v0).range := by
    intro i hi ht
    rw [solveScenario_range_drag _ _ _ hi]
    rw [solveScenario_time_drag _ _ _ hi] at ht
    have hexp : Real.exp (-(BETA * solveTime (TransFns.mk Real.exp Real.sin Real.cos
        Real.log Real.sqrt Real.pi) i θ v0)) ≤ 1 := by
      rw [← Real.exp_zero]
      apply Real.exp_le_exp.mpr
      nlinarith
    show 0 ≤ _ / BETA * (1 - Real.exp _)
    exact mul_nonneg (le_of_lt (div_pos hvx hB)) (by linarith)
  have hrange : 0 ≤ (solveScenario (TransFns.mk Real.exp Real.sin Real.cos Real.log
        Real.sqrt Real.pi) id θ v0).time →
      0 ≤ (solveScenario (TransFns.mk Real.exp Real.sin Real.cos Real.log Real.sqrt
          Real.pi) id θ v0).range := by
    rcases hid with h | h | h
    · subst h
      intro _
      rw [solveScenario_range_one]
      exact le_of_lt (mul_pos hvx (div_pos (by linarith) hG))
    · subst h; exact hdragrange 2 (by decide)
    · subst h; exact hdragrange 3 (by decide)
  have h2 : 0 ≤ (solveScenario (TransFns.mk Real.exp Real.sin Real.cos Real.log
        Real.sqrt Real.pi) id θ v0).time →
      |evalDx (TransFns.mk Real.exp Real.sin Real.cos Real.log Real.sqrt Real.pi) id v0
        (angleRadOf (TransFns.mk Real.exp Real.sin Real.cos Real.log Real.sqrt Real.pi) θ)
        ((solveScenario (TransFns.mk Real.exp Real.sin Real.cos Real.log Real.sqrt
            Real.pi) id θ v0).time)|
      = (solveScenario (TransFns.mk Real.exp Real.sin Real.cos Real.log Real.sqrt
          Real.pi) id θ v0).range := by
    intro ht
    rw [h1]
    exact abs_of_nonneg (hrange ht)
  refine ⟨h1, h2, ?_, ?_, ?_⟩
  · intro h
    subst h
    rw [cfg_h0_one, scen1_dy_time_zero]
    norm_num
  · intro hne1
    rw [evalDy_drag_angle _ _ _ _ hne1]
    congr 1
    conv_rhs => rw [solveY_via_zero]
    ring
  · intro ht s hs
    rw [calculatePhysics_physX _ _ _ _ hs,
      show (jitterFree (TransFns.mk Real.exp Real.sin Real.cos Real.log Real.sqrt
          Real.pi) id θ v0).scenario = id from rfl,
      show (jitterFree (TransFns.mk Real.exp Real.sin Real.cos Real.log Real.sqrt
          Real.pi) id θ v0).velocity = v0 from rfl,
      show (jitterFree (TransFns.mk Real.exp Real.sin Real.cos Real.log Real.sqrt
          Real.pi) id θ v0).angle
        = angleRadOf (TransFns.mk Real.exp Real.sin Real.cos Real.log Real.sqrt
            Real.pi) θ from rfl,
      show (jitterFree (TransFns.mk Real.exp Real.sin Real.cos Real.log Real.sqrt
          Real.pi) id θ v0).startTime = (0 : ℝ) from rfl,
      show (1000 * (solveScenario (TransFns.mk Real.exp Real.sin Real.cos Real.log
            Real.sqrt Real.pi) id θ v0).time - 0) / 1000
        = (solveScenario (TransFns.mk Real.exp Real.sin Real.cos Real.log Real.sqrt
            Real.pi) id θ v0).time from by ring]
    exact h2 ht

theorem C1_solver_evaluator_consistency_w :
    ((1 : ℤ) = 1 ∨ (1 : ℤ) = 2 ∨ (1 : ℤ) = 3) ∧ (0 : ℝ) < 45 ∧ (45 : ℝ) < 90
    ∧ (0 : ℝ) < 5
    ∧ evalDx (TransFns.mk Real.exp Real.sin Real.cos Real.log Real.sqrt Real.pi) 1 5
        (angleRadOf (TransFns.mk Real.exp Real.sin Real.cos Real.log Real.sqrt Real.pi) 45)
        ((solveScenario (TransFns.mk Real.exp Real.sin Real.cos Real.log Real.sqrt
            Real.pi) 1 45 5).time)
      = (solveScenario (TransFns.mk Real.exp Real.sin Real.cos Real.log Real.sqrt
          Real.pi) 1 45 5).range :=
  ⟨by norm_num, by norm_num, by norm_num, by norm_num,
    (C1_solver_evaluator_consistency 1 45 5 (by norm_num) (by norm_num) (by norm_num)
      (by norm_num)).1⟩

end BetterSprinkler
